import Mathlib

/-!
Verification development for the brownstone building-model generator
(`brownstone-ifc-generator.py`).

The generator is a linear, deterministic pipeline: global dimensional
parameters (feet) → storey stack with elevations (metres) → walls, slabs,
windows, doors, stoop, fixtures and MEP units, each registered in a storey's
containment batch.  We embed it shallowly:

* Python floats are modelled by `ℚ`; every arithmetic step of the source is
  a linear operation on exact decimal constants, so exact rational equalities
  decide the floating-tolerance claims.
* The global constant block at the top of the source is modelled by a
  `Params` record (`defaultParams` holds the source's values); each function
  that reads the globals takes the record as an argument.
* GUIDs (`create_guid`, one fresh id per created element) are modelled by an
  abstract supply `gen : Nat → G` together with a counter threaded through
  the build in source order; relation entities (containment records and
  material associations) are bookkeeping and mint no element identity.
* `createIfcRelContainedInSpatialStructure(…, elems, storey)` calls are
  modelled as containment batches `(storey index, elems)`, accumulated in
  source order.
-/

/- The core `Rat` arithmetic operations ship `@[irreducible]`; restoring the
default reducibility lets `decide`/`rfl` evaluate concrete rational
arithmetic (the kernel ignores reducibility attributes either way). -/
attribute [local semireducible] Rat.mul Rat.add Rat.sub Rat.inv Rat.ofScientific

/-- The global parameter block at the top of the source (values in feet):
`BUILDING_WIDTH = 40`, `BUILDING_DEPTH = 80`, `BASEMENT_HEIGHT = 9`,
`FIRST_FLOOR_HEIGHT = 10`, `SECOND_FLOOR_HEIGHT = 14`,
`THIRD_FLOOR_HEIGHT = 12`, `FOURTH_FLOOR_HEIGHT = 12`,
`WALL_THICKNESS = 1`, `FLOOR_THICKNESS = 1`, `ROOF_THICKNESS = 1.5`. -/
structure Params where
  buildingWidth : ℚ
  buildingDepth : ℚ
  basementHeight : ℚ
  firstFloorHeight : ℚ
  secondFloorHeight : ℚ
  thirdFloorHeight : ℚ
  fourthFloorHeight : ℚ
  wallThickness : ℚ
  floorThickness : ℚ
  roofThickness : ℚ
deriving DecidableEq

/-- The concrete values of the source's global constant block. -/
def defaultParams : Params :=
  { buildingWidth := 40, buildingDepth := 80, basementHeight := 9,
    firstFloorHeight := 10, secondFloorHeight := 14, thirdFloorHeight := 12,
    fourthFloorHeight := 12, wallThickness := 1, floorThickness := 1,
    roofThickness := 1.5 }

/-- The spec's Parameters invariant: all values strictly positive. -/
def Params.valid (p : Params) : Prop :=
  0 < p.buildingWidth ∧ 0 < p.buildingDepth ∧ 0 < p.basementHeight ∧
  0 < p.firstFloorHeight ∧ 0 < p.secondFloorHeight ∧ 0 < p.thirdFloorHeight ∧
  0 < p.fourthFloorHeight ∧ 0 < p.wallThickness ∧ 0 < p.floorThickness ∧
  0 < p.roofThickness

instance (p : Params) : Decidable p.valid := by
  unfold Params.valid; infer_instance

/-- Source constant `FOOT_TO_METER = 0.3048` (line 42). -/
def FOOT_TO_METER : ℚ := 0.3048

/-- Source constant `INCH_TO_METER = 0.0254` (line 43). -/
def INCH_TO_METER : ℚ := 0.0254

/-- Source function `convert_to_meter(feet) = feet * FOOT_TO_METER` (lines 45-47). -/
def convert_to_meter (feet : ℚ) : ℚ := feet * FOOT_TO_METER

/-- The two length units the converter recognises. -/
inductive LengthUnit
  | foot
  | inch
deriving DecidableEq

/-- Modelled from the spec: the unit-dispatching wrapper `toMeters(value, unit)`
of the UnitConverter component.  The source provides the foot branch as the
function `convert_to_meter` and both scale constants (`FOOT_TO_METER`,
`INCH_TO_METER`); no source function dispatches on an inch-tagged value, so
the dispatch itself follows the spec's words. -/
def toMeters (value : ℚ) : LengthUnit → ℚ
  | .foot => value * FOOT_TO_METER
  | .inch => value * INCH_TO_METER

/-- A building storey: human-readable name and signed elevation in metres
(the embedding keeps exactly the attributes the claims speak about; the
local placement of a storey repeats its elevation as the origin's z). -/
structure Storey where
  name : String
  elevation : ℚ
deriving DecidableEq

/-- Source function `create_storeys` (lines 116-144): six storeys, elevations
`[-basement, 0, f1, f1+f2, f1+f2+f3, f1+f2+f3+f4]` converted to metres,
zipped with the fixed name list, in bottom-to-top order. -/
def create_storeys (p : Params) : List Storey :=
  let storey_names := ["Basement", "First Floor", "Second Floor",
    "Third Floor", "Fourth Floor", "Roof"]
  let storey_elevations : List ℚ :=
    [-(convert_to_meter p.basementHeight),
     0,
     convert_to_meter p.firstFloorHeight,
     convert_to_meter (p.firstFloorHeight + p.secondFloorHeight),
     convert_to_meter (p.firstFloorHeight + p.secondFloorHeight + p.thirdFloorHeight),
     convert_to_meter (p.firstFloorHeight + p.secondFloorHeight + p.thirdFloorHeight
       + p.fourthFloorHeight)]
  List.zipWith (fun n e => { name := n, elevation := e }) storey_names storey_elevations

/-- Source list `wall_heights` (lines 151-157): the per-storey wall heights in
feet, in storey order; this is also the claims' list of nominal storey
heights (basement height for index 0, else the corresponding floor height). -/
def wall_heights (p : Params) : List ℚ :=
  [p.basementHeight, p.firstFloorHeight, p.secondFloorHeight,
   p.thirdFloorHeight, p.fourthFloorHeight]

/-- Three-dimensional point, coordinates in metres. -/
structure Point3 where
  x : ℚ
  y : ℚ
  z : ℚ
deriving DecidableEq

/-- A generated building element.  `guid` is the freshly minted identifier
(`create_guid` in the source, one per element); `entity` is the IFC entity
type the source constructs; `tag` the predefined-type string argument
(slab FLOOR/ROOF, stair STRAIGHT, fixture SINK/WCCISTERN, MEP type);
`position` the placement origin; `axisEnd` the segment end point for
segment-derived (wall) placements and equal to `position` for the
axis-aligned ones; `dims` the solid's scalar dimensions in creation order;
`material` the associated material name. -/
structure Element (G : Type) where
  guid : G
  entity : String
  name : String
  tag : String
  position : Point3
  axisEnd : Point3
  dims : List ℚ
  material : String
deriving DecidableEq

/- ### helper lemmas on the converter -/

theorem convert_to_meter_pos {x : ℚ} (hx : 0 < x) : 0 < convert_to_meter x := by
  unfold convert_to_meter FOOT_TO_METER
  have h : (0 : ℚ) < 0.3048 := by norm_num
  exact mul_pos hx h

theorem convert_to_meter_lt {a b : ℚ} (h : a < b) :
    convert_to_meter a < convert_to_meter b := by
  unfold convert_to_meter FOOT_TO_METER
  have hs : (0 : ℚ) < 0.3048 := by norm_num
  exact mul_lt_mul_of_pos_right h hs

/-- C1: for every valid `Params` record, `create_storeys` returns exactly six
storeys in bottom-to-top (strictly increasing elevation) order, with
elevations the running sums `-basement, 0, f1, f1+f2, f1+f2+f3,
f1+f2+f3+f4` (converted to metres, the last being the roof sentinel at the
top of the fourth floor), and for every `i`,
`elevation[i+1] - elevation[i]` equals the converted nominal height of
storey `i` exactly — in particular within the floating tolerance `1e-9`. -/
theorem create_storeys_running_sum (p : Params) (hp : p.valid) :
    (create_storeys p).length = 6
    ∧ (create_storeys p).map Storey.elevation =
        [-(convert_to_meter p.basementHeight), 0,
         convert_to_meter p.firstFloorHeight,
         convert_to_meter (p.firstFloorHeight + p.secondFloorHeight),
         convert_to_meter (p.firstFloorHeight + p.secondFloorHeight + p.thirdFloorHeight),
         convert_to_meter (p.firstFloorHeight + p.secondFloorHeight + p.thirdFloorHeight
           + p.fourthFloorHeight)]
    ∧ List.Chain' (fun a b => a.elevation < b.elevation) (create_storeys p)
    ∧ (∀ i, i + 1 < 6 →
        ((create_storeys p).map Storey.elevation).getD (i + 1) 0
          - ((create_storeys p).map Storey.elevation).getD i 0
          = convert_to_meter ((wall_heights p).getD i 0))
    ∧ (∀ i, i + 1 < 6 →
        |((create_storeys p).map Storey.elevation).getD (i + 1) 0
          - ((create_storeys p).map Storey.elevation).getD i 0
          - convert_to_meter ((wall_heights p).getD i 0)| ≤ 1e-9) := by
  obtain ⟨hw, hd, hb, h1, h2, h3, h4, _⟩ := hp
  refine ⟨rfl, rfl, ?_, ?_, ?_⟩
  · simp only [create_storeys, List.zipWith, List.chain'_cons, List.chain'_singleton,
      and_true]
    refine ⟨?_, ?_, ?_, ?_, ?_⟩
    · simpa using convert_to_meter_pos hb
    · exact convert_to_meter_pos h1
    · exact convert_to_meter_lt (by linarith)
    · exact convert_to_meter_lt (by linarith)
    · exact convert_to_meter_lt (by linarith)
  · intro i hi
    have hi4 : i ≤ 4 := by omega
    interval_cases i <;>
      simp [create_storeys, wall_heights, convert_to_meter] <;> ring
  · intro i hi
    have hi4 : i ≤ 4 := by omega
    have h0 : ((create_storeys p).map Storey.elevation).getD (i + 1) 0
        - ((create_storeys p).map Storey.elevation).getD i 0
        - convert_to_meter ((wall_heights p).getD i 0) = 0 := by
      interval_cases i <;>
        simp [create_storeys, wall_heights, convert_to_meter] <;> ring
    rw [h0]
    norm_num

/-- Witness for C1 at the source's own parameter block. -/
theorem create_storeys_running_sum_witness :
    defaultParams.valid
    ∧ (create_storeys defaultParams).map Storey.elevation =
        [-(convert_to_meter defaultParams.basementHeight), 0,
         convert_to_meter defaultParams.firstFloorHeight,
         convert_to_meter (defaultParams.firstFloorHeight + defaultParams.secondFloorHeight),
         convert_to_meter (defaultParams.firstFloorHeight + defaultParams.secondFloorHeight
           + defaultParams.thirdFloorHeight),
         convert_to_meter (defaultParams.firstFloorHeight + defaultParams.secondFloorHeight
           + defaultParams.thirdFloorHeight + defaultParams.fourthFloorHeight)] :=
  ⟨by decide, (create_storeys_running_sum defaultParams (by decide)).2.1⟩

/-- C8: unit conversion is a pure total function on `{foot, inch}`:
`value * 0.3048` for feet (agreeing with the source's `convert_to_meter`)
and `value * 0.0254` for inches, with no error case, and
`toMeters(1, foot) / 0.3048 = 1` holds exactly. -/
theorem toMeters_pure_total (v : ℚ) :
    toMeters v .foot = v * 0.3048
    ∧ toMeters v .inch = v * 0.0254
    ∧ toMeters v .foot = convert_to_meter v
    ∧ toMeters 1 .foot / 0.3048 = 1 := by
  refine ⟨rfl, rfl, rfl, ?_⟩
  norm_num [toMeters, FOOT_TO_METER]

/-- Source function `create_wall` (lines 244-277).  The source computes
`length = sqrt(dx^2 + dy^2)` from the planar components of
`end_point - start_point` and returns `None` when `length == 0`; over exact
rationals `length == 0` iff `dx = 0 ∧ dy = 0`, which is the test used here
(no square root is needed for the skip decision).  Otherwise it mints one
GUID and builds one `IfcWallStandardCase` placed at `start_point` whose
swept solid is the rectangle `[0, length] × [-thickness/2, thickness/2]`
extruded vertically by `height`; the normalized direction and its
perpendicular populate only the placement frame, so the element is fully
determined by the endpoints, thickness, height and material kept here. -/
def create_wall {G : Type} (gen : Nat → G) (n : Nat) (name : String)
    (start_point end_point : Point3) (thickness height : ℚ)
    (material_name : String) : Option (Element G) × Nat :=
  let dx := end_point.x - start_point.x
  let dy := end_point.y - start_point.y
  if dx = 0 ∧ dy = 0 then (none, n)
  else
    (some { guid := gen n, entity := "IfcWallStandardCase", name := name,
            tag := "", position := start_point, axisEnd := end_point,
            dims := [thickness, height], material := material_name }, n + 1)

/-- Wall material tier by storey index (source lines 171-177). -/
def wall_material (i : Nat) : String :=
  if i = 0 then "Concrete"
  else if i = 1 ∨ i = 2 then "Brownstone"
  else "Brick"

/-- Body of the `create_walls` loop for storey `i` (source lines 159-234):
four perimeter walls always, plus corridor wall and the two cross walls
(the `for j in range(1, 3)` loop unrolled) when `i > 0`. -/
def create_storey_walls {G : Type} (gen : Nat → G) (p : Params) (i : Nat)
    (storey_elevation : ℚ) (n : Nat) : List (Option (Element G)) × Nat :=
  let wall_height := convert_to_meter ((wall_heights p).getD i 0)
  let width := convert_to_meter p.buildingWidth
  let depth := convert_to_meter p.buildingDepth
  let thickness := convert_to_meter p.wallThickness
  let material_name := wall_material i
  let r1 := create_wall gen n "Front Wall" ⟨0, 0, storey_elevation⟩
    ⟨width, 0, storey_elevation⟩ thickness wall_height material_name
  let r2 := create_wall gen r1.2 "Back Wall" ⟨0, depth, storey_elevation⟩
    ⟨width, depth, storey_elevation⟩ thickness wall_height material_name
  let r3 := create_wall gen r2.2 "Left Wall" ⟨0, 0, storey_elevation⟩
    ⟨0, depth, storey_elevation⟩ thickness wall_height material_name
  let r4 := create_wall gen r3.2 "Right Wall" ⟨width, 0, storey_elevation⟩
    ⟨width, depth, storey_elevation⟩ thickness wall_height material_name
  if 0 < i then
    let r5 := create_wall gen r4.2 "Corridor Wall"
      ⟨0, depth / 2, storey_elevation⟩ ⟨width, depth / 2, storey_elevation⟩
      thickness wall_height material_name
    let r6 := create_wall gen r5.2 "Cross Wall 1"
      ⟨width / 3 * 1, 0, storey_elevation⟩ ⟨width / 3 * 1, depth, storey_elevation⟩
      thickness wall_height material_name
    let r7 := create_wall gen r6.2 "Cross Wall 2"
      ⟨width / 3 * 2, 0, storey_elevation⟩ ⟨width / 3 * 2, depth, storey_elevation⟩
      thickness wall_height material_name
    ([r1.1, r2.1, r3.1, r4.1, r5.1, r6.1, r7.1], r7.2)
  else
    ([r1.1, r2.1, r3.1, r4.1], r4.2)

/-- The `enumerate(storeys[:-1])` loop of `create_walls`, yielding per storey
`i` its containment batch `(i, walls)` (relation created at source lines
236-238). -/
def create_walls_loop {G : Type} (gen : Nat → G) (p : Params) :
    Nat → Nat → List Storey → List (Nat × List (Option (Element G))) × Nat
  | _, n, [] => ([], n)
  | i, n, s :: rest =>
    let r := create_storey_walls gen p i s.elevation n
    let r' := create_walls_loop gen p (i + 1) r.2 rest
    ((i, r.1) :: r'.1, r'.2)

/-- Source function `create_walls` (lines 146-242): walls for every storey except the
roof sentinel (`storeys[:-1]`), each storey's walls registered under that
storey in one batch. -/
def create_walls {G : Type} (gen : Nat → G) (p : Params) (storeys : List Storey)
    (n : Nat) : List (Nat × List (Option (Element G))) × Nat :=
  create_walls_loop gen p 0 n storeys.dropLast

/-- C6: a wall request yields no element (`none`) exactly when its planar
direction vanishes — in particular whenever start = end, the zero-length
request of the claim — and it is a total function, so the skip is silent and
contributes no element and no containment entry; every request of nonzero
planar length produces exactly one wall element. -/
theorem create_wall_degenerate_skip {G : Type} (gen : Nat → G) (n : Nat)
    (name : String) (s e : Point3) (t h : ℚ) (m : String) :
    ((create_wall gen n name s e t h m).1 = none
      ↔ (e.x - s.x = 0 ∧ e.y - s.y = 0))
    ∧ (Option.toList (create_wall gen n name s e t h m).1).length
        = (if e.x - s.x = 0 ∧ e.y - s.y = 0 then 0 else 1) := by
  unfold create_wall
  by_cases hc : e.x - s.x = 0 ∧ e.y - s.y = 0
  · simp [hc]
  · simp [hc]

/-- C2: for every valid parameter record, `create_walls` over the built
storeys produces exactly five batches, one per occupied storey (indices
0-4; the roof sentinel owns none), with four perimeter walls each and —
above the basement — additionally one corridor wall at `depth/2` and two
cross walls at `width/3` and `2*width/3`, every request non-degenerate, for
a total of `4 + 4*7 = 32` walls; the per-batch name/endpoint lists identify
each wall as spanning the full footprint. -/
theorem create_walls_count_layout {G : Type} (gen : Nat → G) (n : Nat)
    (p : Params) (hp : p.valid) :
    ((create_walls gen p (create_storeys p) n).1).map Prod.fst = [0, 1, 2, 3, 4]
    ∧ ((create_walls gen p (create_storeys p) n).1).map
        (fun b => (b.2.filterMap id).length) = [4, 7, 7, 7, 7]
    ∧ (((create_walls gen p (create_storeys p) n).1).map
        (fun b => (b.2.filterMap id).length)).sum = 32
    ∧ ((create_walls gen p (create_storeys p) n).1).map
        (fun b => (b.2.filterMap id).map
          (fun w => (w.name, w.position.x, w.position.y, w.axisEnd.x, w.axisEnd.y)))
      = [[("Front Wall", 0, 0, convert_to_meter p.buildingWidth, 0),
          ("Back Wall", 0, convert_to_meter p.buildingDepth,
            convert_to_meter p.buildingWidth, convert_to_meter p.buildingDepth),
          ("Left Wall", 0, 0, 0, convert_to_meter p.buildingDepth),
          ("Right Wall", convert_to_meter p.buildingWidth, 0,
            convert_to_meter p.buildingWidth, convert_to_meter p.buildingDepth)]]
        ++ List.replicate 4
          [("Front Wall", 0, 0, convert_to_meter p.buildingWidth, 0),
           ("Back Wall", 0, convert_to_meter p.buildingDepth,
             convert_to_meter p.buildingWidth, convert_to_meter p.buildingDepth),
           ("Left Wall", 0, 0, 0, convert_to_meter p.buildingDepth),
           ("Right Wall", convert_to_meter p.buildingWidth, 0,
             convert_to_meter p.buildingWidth, convert_to_meter p.buildingDepth),
           ("Corridor Wall", 0, convert_to_meter p.buildingDepth / 2,
             convert_to_meter p.buildingWidth, convert_to_meter p.buildingDepth / 2),
           ("Cross Wall 1", convert_to_meter p.buildingWidth / 3, 0,
             convert_to_meter p.buildingWidth / 3, convert_to_meter p.buildingDepth),
           ("Cross Wall 2", 2 * convert_to_meter p.buildingWidth / 3, 0,
             2 * convert_to_meter p.buildingWidth / 3, convert_to_meter p.buildingDepth)] := by
  have hw : convert_to_meter p.buildingWidth ≠ 0 :=
    ne_of_gt (convert_to_meter_pos hp.1)
  have hd : convert_to_meter p.buildingDepth ≠ 0 :=
    ne_of_gt (convert_to_meter_pos hp.2.1)
  refine ⟨?_, ?_, ?_, ?_⟩ <;>
    simp [create_walls, create_walls_loop, create_storey_walls, create_wall,
      create_storeys, wall_material, wall_heights, List.dropLast, hw, hd,
      List.replicate] <;>
    ring_nf

/-- Witness for C2 at the source's parameter block: valid parameters and the
batch sizes 4, 7, 7, 7, 7 summing to 32. -/
theorem create_walls_count_layout_witness :
    defaultParams.valid
    ∧ ((create_walls (G := Nat) (fun k => k) defaultParams
          (create_storeys defaultParams) 0).1).map
        (fun b => (b.2.filterMap id).length) = [4, 7, 7, 7, 7] :=
  ⟨by decide,
   (create_walls_count_layout (fun k => k) 0 defaultParams (by decide)).2.1⟩

/-- One interior slab of the `create_slabs` loop at boundary index `i`
(source lines 316-359): placed at `next_elevation - floor thickness` (so its
top aligns with the next storey's elevation), footprint-sized and extruded
by the floor thickness, named `"Roof"`/ROOF when `i == len(storeys) - 2` and
`"Floor {i+1}"`/FLOOR otherwise, material `"Concrete"` at the basement
boundary else `"Wood Floor"`. -/
def create_interior_slab {G : Type} (gen : Nat → G) (p : Params) (total i : Nat)
    (next_elevation : ℚ) (n : Nat) : Element G × Nat :=
  let width := convert_to_meter p.buildingWidth
  let depth := convert_to_meter p.buildingDepth
  let material_name := if i = 0 then "Concrete" else "Wood Floor"
  let slab_name := if i = total - 2 then "Roof" else "Floor " ++ toString (i + 1)
  let slab_type := if i = total - 2 then "ROOF" else "FLOOR"
  ({ guid := gen n, entity := "IfcSlab", name := slab_name, tag := slab_type,
     position := ⟨0, 0, next_elevation - convert_to_meter p.floorThickness⟩,
     axisEnd := ⟨0, 0, next_elevation - convert_to_meter p.floorThickness⟩,
     dims := [width, depth, convert_to_meter p.floorThickness],
     material := material_name }, n + 1)

/-- The `enumerate(storeys[:-1])` loop of `create_slabs`, fed with the
consecutive pairs `(storeys[i], storeys[i+1])`; each slab is related to the
upper storey `storeys[i+1]` (source lines 355-357). -/
def create_slabs_loop {G : Type} (gen : Nat → G) (p : Params) (total : Nat) :
    Nat → Nat → List (Storey × Storey) →
      List (Element G) × List (Nat × List (Option (Element G))) × Nat
  | _, n, [] => ([], [], n)
  | i, n, pr :: rest =>
    let r := create_interior_slab gen p total i pr.2.elevation n
    let r' := create_slabs_loop gen p total (i + 1) r.2 rest
    (r.1 :: r'.1, (i + 1, [some r.1]) :: r'.2.1, r'.2.2)

/-- Source function `create_slabs` (lines 312-400): one interior slab per boundary of
consecutive storeys over `storeys[:-1]`, then the dedicated roof-cap slab at
the last storey's own elevation (`storeys[-1]`, no downward offset), ROOF
type, `"Roof Membrane"` material, extruded by the roof thickness and related
to the last storey.  (`storeys[-1]` on an empty list would raise in the
source; the embedding's `getD 0` default is never exercised — the storey
list always has six entries.) -/
def create_slabs {G : Type} (gen : Nat → G) (p : Params) (storeys : List Storey)
    (n : Nat) : List (Element G) × List (Nat × List (Option (Element G))) × Nat :=
  let r := create_slabs_loop gen p storeys.length 0 n (storeys.dropLast.zip storeys.tail)
  let width := convert_to_meter p.buildingWidth
  let depth := convert_to_meter p.buildingDepth
  let top_elevation := ((storeys.getLast?).map Storey.elevation).getD 0
  let roof : Element G :=
    { guid := gen r.2.2, entity := "IfcSlab", name := "Roof Slab", tag := "ROOF",
      position := ⟨0, 0, top_elevation⟩, axisEnd := ⟨0, 0, top_elevation⟩,
      dims := [width, depth, convert_to_meter p.roofThickness],
      material := "Roof Membrane" }
  (r.1 ++ [roof], r.2.1 ++ [(storeys.length - 1, [some roof])], r.2.2 + 1)

/-- C3: `create_slabs` over the built storeys produces exactly six slabs:
five interior slabs, one per boundary between consecutive occupied storeys,
each placed at `elevation[i+1] - floorThickness` so that its top
(`position.z` plus the extrusion depth `dims[2]`) aligns with storey
`i+1`'s elevation, plus one roof-cap slab placed at the roof sentinel's own
elevation with no downward offset and the `"Roof Membrane"` material. -/
theorem create_slabs_count_placement {G : Type} (gen : Nat → G) (n : Nat)
    (p : Params) :
    ((create_slabs gen p (create_storeys p) n).1).length = 6
    ∧ ((create_slabs gen p (create_storeys p) n).1).map (fun e => e.position.z)
      = [((create_storeys p).map Storey.elevation).getD 1 0 - convert_to_meter p.floorThickness,
         ((create_storeys p).map Storey.elevation).getD 2 0 - convert_to_meter p.floorThickness,
         ((create_storeys p).map Storey.elevation).getD 3 0 - convert_to_meter p.floorThickness,
         ((create_storeys p).map Storey.elevation).getD 4 0 - convert_to_meter p.floorThickness,
         ((create_storeys p).map Storey.elevation).getD 5 0 - convert_to_meter p.floorThickness,
         ((create_storeys p).map Storey.elevation).getD 5 0]
    ∧ (((create_slabs gen p (create_storeys p) n).1).take 5).map
        (fun e => e.position.z + e.dims.getD 2 0)
      = [((create_storeys p).map Storey.elevation).getD 1 0,
         ((create_storeys p).map Storey.elevation).getD 2 0,
         ((create_storeys p).map Storey.elevation).getD 3 0,
         ((create_storeys p).map Storey.elevation).getD 4 0,
         ((create_storeys p).map Storey.elevation).getD 5 0]
    ∧ ((create_slabs gen p (create_storeys p) n).1).map Element.material
      = ["Concrete", "Wood Floor", "Wood Floor", "Wood Floor", "Wood Floor",
         "Roof Membrane"] := by
  refine ⟨?_, ?_, ?_, ?_⟩ <;>
    simp [create_slabs, create_slabs_loop, create_interior_slab, create_storeys,
      List.dropLast, List.tail]

/-- A throwaway element used only as the `getD` default in concrete
statements below; it never coincides with a generated element. -/
def dummyElement : Element Nat :=
  { guid := 0, entity := "", name := "", tag := "", position := ⟨0, 0, 0⟩,
    axisEnd := ⟨0, 0, 0⟩, dims := [], material := "" }

/-- Counterexample to C4 at the source's parameter block: the topmost
occupied storey is storey 4 ("Fourth Floor"); the interior slab immediately
below it — the slab whose top aligns with storey 4's elevation, index 3 —
carries tag "FLOOR", not "ROOF"; the ROOF-tagged interior slab is instead
index 4, whose top aligns with the roof sentinel's elevation (storey 5),
i.e. it sits at the top of — not below — the topmost occupied storey. -/
theorem slab_roof_tag_counterexample :
    ((create_storeys defaultParams).map Storey.name).getD 4 "" = "Fourth Floor"
    ∧ (((create_slabs (fun k => k) defaultParams (create_storeys defaultParams) 0).1).getD 3
        dummyElement).position.z
      + (((create_slabs (fun k => k) defaultParams (create_storeys defaultParams) 0).1).getD 3
          dummyElement).dims.getD 2 0
      = ((create_storeys defaultParams).map Storey.elevation).getD 4 0
    ∧ (((create_slabs (fun k => k) defaultParams (create_storeys defaultParams) 0).1).getD 3
        dummyElement).tag = "FLOOR"
    ∧ ¬ (((create_slabs (fun k => k) defaultParams (create_storeys defaultParams) 0).1).getD 3
        dummyElement).tag = "ROOF"
    ∧ (((create_slabs (fun k => k) defaultParams (create_storeys defaultParams) 0).1).getD 4
        dummyElement).tag = "ROOF"
    ∧ (((create_slabs (fun k => k) defaultParams (create_storeys defaultParams) 0).1).getD 4
        dummyElement).position.z
      + (((create_slabs (fun k => k) defaultParams (create_storeys defaultParams) 0).1).getD 4
          dummyElement).dims.getD 2 0
      = ((create_storeys defaultParams).map Storey.elevation).getD 5 0 := by
  refine ⟨rfl, ?_, rfl, by decide, rfl, ?_⟩ <;> decide

/-- C4 (amended): among the interior slabs (geometry unchanged), exactly the
topmost one — index 4, at the boundary below the roof sentinel, i.e. at the
top of the topmost occupied storey — is named "Roof" with ROOF category;
all other interior slabs are "Floor i"/FLOOR. -/
theorem interior_slab_roof_tag {G : Type} (gen : Nat → G) (n : Nat) (p : Params) :
    (((create_slabs gen p (create_storeys p) n).1).take 5).map
        (fun e => (e.name, e.tag))
      = [("Floor 1", "FLOOR"), ("Floor 2", "FLOOR"), ("Floor 3", "FLOOR"),
         ("Floor 4", "FLOOR"), ("Roof", "ROOF")] := by
  simp [create_slabs, create_slabs_loop, create_interior_slab, create_storeys,
    List.dropLast, List.tail]
  decide

/-- Source dict `window_heights` (lines 598-604): per-floor window heights in
feet; the source dict has exactly the keys 0-4 and the loop queries no
other key, so the catch-all branch is never exercised. -/
def window_heights : Nat → ℚ
  | 0 => 3
  | 1 => 6
  | 2 => 8
  | 3 => 6
  | 4 => 6
  | _ => 0

/-- Source dict `window_widths` (lines 606-612): per-floor window widths in feet
(same key discipline as `window_heights`). -/
def window_widths : Nat → ℚ
  | 0 => 3
  | 1 => 3.5
  | 2 => 4
  | 3 => 3.5
  | 4 => 3.5
  | _ => 0

/-- The facade distribution rule of `create_windows` (source lines 640-643):
centre a single opening, else place opening `j` at
`building_width * (j+1) / (window_count+1) - window_width/2`. -/
def window_x_position (building_width window_width : ℚ) (window_count j : Nat) : ℚ :=
  if window_count = 1 then building_width / 2 - window_width / 2
  else building_width * ((j : ℚ) + 1) / ((window_count : ℚ) + 1) - window_width / 2

/-- Source function `create_window` (lines 574-591): one `IfcWindow` at the given
position, solid `width × height` extruded through the wall thickness
(global `WALL_THICKNESS`, read from the parameter record here). -/
def create_window {G : Type} (gen : Nat → G) (p : Params) (n : Nat)
    (name : String) (position : Point3) (width height : ℚ) : Element G × Nat :=
  ({ guid := gen n, entity := "IfcWindow", name := name, tag := "",
     position := position, axisEnd := position,
     dims := [width, height, convert_to_meter p.wallThickness],
     material := "" }, n + 1)

/-- One facade row of the window loop (`for j in range(window_count)`,
source lines 638-666): window `j` of storey `i` at
`x = window_x_position(building_width, window_width, window_count, j)`,
`y` fixed per facade (0 front, building depth back), sill 3 ft above the
storey elevation. -/
def create_window_row {G : Type} (gen : Nat → G) (p : Params) (i count : Nat)
    (label : String) (y storey_elevation : ℚ) :
    List Nat → Nat → List (Element G) × Nat
  | [], n => ([], n)
  | j :: js, n =>
    let building_width := convert_to_meter p.buildingWidth
    let window_width := convert_to_meter (window_widths i)
    let window_height := convert_to_meter (window_heights i)
    let sill_height := convert_to_meter 3
    let x_position := window_x_position building_width window_width count j
    let r := create_window gen p n
      (label ++ " Window " ++ toString i ++ "-" ++ toString j)
      ⟨x_position, y, storey_elevation + sill_height⟩ window_width window_height
    let r' := create_window_row gen p i count label y storey_elevation js r.2
    (r.1 :: r'.1, r'.2)

/-- The `enumerate(storeys[:-1])` loop of `create_windows` (source lines
615-675): 2 openings at the basement, 3 elsewhere; front row (`y = 0`) then
back row (`y = building_depth`), both batches registered under storey `i`
in one relation. -/
def create_windows_loop {G : Type} (gen : Nat → G) (p : Params) :
    Nat → Nat → List Storey →
      List (Element G) × List (Nat × List (Option (Element G))) × Nat
  | _, n, [] => ([], [], n)
  | i, n, s :: rest =>
    let window_count := if i = 0 then 2 else 3
    let building_depth := convert_to_meter p.buildingDepth
    let rf := create_window_row gen p i window_count "Front" 0 s.elevation
      (List.range window_count) n
    let rb := create_window_row gen p i window_count "Back" building_depth
      s.elevation (List.range window_count) rf.2
    let r' := create_windows_loop gen p (i + 1) rb.2 rest
    ((rf.1 ++ rb.1) ++ r'.1, (i, (rf.1 ++ rb.1).map some) :: r'.2.1, r'.2.2)

/-- Source function `create_windows` (lines 593-676). -/
def create_windows {G : Type} (gen : Nat → G) (p : Params) (storeys : List Storey)
    (n : Nat) : List (Element G) × List (Nat × List (Option (Element G))) × Nat :=
  create_windows_loop gen p 0 n storeys.dropLast

theorem create_window_row_map_x {G : Type} (gen : Nat → G) (p : Params)
    (i count : Nat) (label : String) (y elev : ℚ) :
    ∀ (js : List Nat) (n : Nat),
      ((create_window_row gen p i count label y elev js n).1).map
          (fun e => e.position.x)
        = js.map (fun j => window_x_position (convert_to_meter p.buildingWidth)
            (convert_to_meter (window_widths i)) count j) := by
  intro js
  induction js with
  | nil => intro n; rfl
  | cons j js ih => intro n; simp [create_window_row, create_window, ih]

theorem create_window_row_map_y {G : Type} (gen : Nat → G) (p : Params)
    (i count : Nat) (label : String) (y elev : ℚ) :
    ∀ (js : List Nat) (n : Nat),
      ((create_window_row gen p i count label y elev js n).1).map
          (fun e => e.position.y)
        = List.replicate js.length y := by
  intro js
  induction js with
  | nil => intro n; rfl
  | cons j js ih => intro n; simp [create_window_row, create_window, ih, List.replicate]

/-- C5: for `N ≥ 2` openings along a facade of length `L` with opening width
`w`, opening `j` sits at `L*(j+1)/(N+1) - w/2`; for `N = 3` this gives
`L/4 - w/2`, `L/2 - w/2`, `3L/4 - w/2`; and a front facade row (`y = 0`)
and a back facade row (`y = building depth`) built by `create_window_row`
use exactly this rule with identical x positions. -/
theorem window_even_distribution (L w : ℚ) (N j : Nat) (hN : 2 ≤ N)
    {G : Type} (gen : Nat → G) (p : Params) (elev : ℚ) (i n : Nat) :
    window_x_position L w N j = L * ((j : ℚ) + 1) / ((N : ℚ) + 1) - w / 2
    ∧ window_x_position L w 3 0 = L / 4 - w / 2
    ∧ window_x_position L w 3 1 = L / 2 - w / 2
    ∧ window_x_position L w 3 2 = 3 * L / 4 - w / 2
    ∧ ((create_window_row gen p i N "Front" 0 elev (List.range N) n).1).map
        (fun e => e.position.x)
      = (List.range N).map (fun j2 => window_x_position
          (convert_to_meter p.buildingWidth)
          (convert_to_meter (window_widths i)) N j2)
    ∧ ((create_window_row gen p i N "Front" 0 elev (List.range N) n).1).map
        (fun e => e.position.x)
      = ((create_window_row gen p i N "Back" (convert_to_meter p.buildingDepth)
          elev (List.range N) n).1).map (fun e => e.position.x)
    ∧ ((create_window_row gen p i N "Front" 0 elev (List.range N) n).1).map
        (fun e => e.position.y) = List.replicate N 0
    ∧ ((create_window_row gen p i N "Back" (convert_to_meter p.buildingDepth)
          elev (List.range N) n).1).map (fun e => e.position.y)
      = List.replicate N (convert_to_meter p.buildingDepth) := by
  have hN1 : N ≠ 1 := by omega
  refine ⟨by simp [window_x_position, hN1], ?_, ?_, ?_, ?_, ?_, ?_, ?_⟩
  · simp [window_x_position]; ring
  · simp [window_x_position]; ring
  · simp [window_x_position]; ring
  · exact create_window_row_map_x gen p i N "Front" 0 elev (List.range N) n
  · rw [create_window_row_map_x, create_window_row_map_x]
  · rw [create_window_row_map_y]; simp
  · rw [create_window_row_map_y]; simp

/-- Witness for C5: `N = 3`, `L = 8`, `w = 2`, opening 0 at
`8 * 1 / 4 - 1 = 1`. -/
theorem window_even_distribution_witness :
    2 ≤ 3
    ∧ window_x_position 8 2 3 0 = 8 * (((0 : Nat) : ℚ) + 1) / (((3 : Nat) : ℚ) + 1) - 2 / 2 :=
  ⟨by norm_num,
   (window_even_distribution 8 2 3 0 (by norm_num) (fun k => k) defaultParams 0 1 0).1⟩

/-- Source function `create_door` (lines 468-485): one `IfcDoor` at the given
position, solid `width × height` extruded through the wall thickness. -/
def create_door {G : Type} (gen : Nat → G) (p : Params) (n : Nat)
    (name : String) (position : Point3) (width height : ℚ) : Element G × Nat :=
  ({ guid := gen n, entity := "IfcDoor", name := name, tag := "",
     position := position, axisEnd := position,
     dims := [width, height, convert_to_meter p.wallThickness],
     material := "" }, n + 1)

/-- The interior-door loop of `create_doors` over `enumerate(storeys[:-1])`
(source lines 512-537): the basement (`i == 0`) is skipped; every other
occupied storey gets two corridor doors at width-thirds
(`for j in range(2)` unrolled), registered under that storey. -/
def create_doors_loop {G : Type} (gen : Nat → G) (p : Params) :
    Nat → Nat → List Storey →
      List (Element G) × List (Nat × List (Option (Element G))) × Nat
  | _, n, [] => ([], [], n)
  | i, n, s :: rest =>
    if i = 0 then create_doors_loop gen p (i + 1) n rest
    else
      let building_width := convert_to_meter p.buildingWidth
      let building_depth := convert_to_meter p.buildingDepth
      let door_width := convert_to_meter 3
      let door_height := convert_to_meter 7
      let r1 := create_door gen p n ("Interior Door " ++ toString i ++ "-0")
        ⟨building_width / 3 * 1, building_depth / 2, s.elevation⟩
        door_width door_height
      let r2 := create_door gen p r1.2 ("Interior Door " ++ toString i ++ "-1")
        ⟨building_width / 3 * 2, building_depth / 2, s.elevation⟩
        door_width door_height
      let r' := create_doors_loop gen p (i + 1) r2.2 rest
      ([r1.1, r2.1] ++ r'.1, (i, [some r1.1, some r2.1]) :: r'.2.1, r'.2.2)

/-- Source function `create_doors` (lines 487-539): one fixed-size front door at the
footprint's horizontal midpoint at `storeys[1]`'s elevation, registered
under storey 1, then the interior-door loop. -/
def create_doors {G : Type} (gen : Nat → G) (p : Params) (storeys : List Storey)
    (n : Nat) : List (Element G) × List (Nat × List (Option (Element G))) × Nat :=
  let front_door_width := convert_to_meter 4
  let front_door_height := convert_to_meter 8
  let building_width := convert_to_meter p.buildingWidth
  let elev1 := (storeys.getD 1 { name := "", elevation := 0 }).elevation
  let rf := create_door gen p n "Front Door"
    ⟨building_width / 2 - front_door_width / 2, 0, elev1⟩
    front_door_width front_door_height
  let r' := create_doors_loop gen p 0 rf.2 storeys.dropLast
  (rf.1 :: r'.1, (1, [some rf.1]) :: r'.2.1, r'.2.2)

/-- Source function `create_stoop` (lines 711-755): one `IfcStair` ("Front Stoop",
STRAIGHT) centred on the front facade, extending outward by its depth
(`y = -stoop_depth`) at ground elevation, "Brownstone" material,
registered under storey 1. -/
def create_stoop {G : Type} (gen : Nat → G) (p : Params) (n : Nat) :
    Element G × List (Nat × List (Option (Element G))) × Nat :=
  let stoop_width := convert_to_meter 12
  let stoop_depth := convert_to_meter 8
  let stoop_height := convert_to_meter 5
  let building_width := convert_to_meter p.buildingWidth
  let stoop : Element G :=
    { guid := gen n, entity := "IfcStair", name := "Front Stoop",
      tag := "STRAIGHT",
      position := ⟨building_width / 2 - stoop_width / 2, -stoop_depth, 0⟩,
      axisEnd := ⟨building_width / 2 - stoop_width / 2, -stoop_depth, 0⟩,
      dims := [stoop_width, stoop_depth, stoop_height],
      material := "Brownstone" }
  (stoop, [(1, [some stoop])], n + 1)

/-- Source function `create_fixture` (lines 790-823): one `IfcSanitaryTerminal`;
material "Porcelain" for SINK, else "Ceramic". -/
def create_fixture {G : Type} (gen : Nat → G) (n : Nat) (name : String)
    (position : Point3) (width depth height : ℚ) (fixture_type : String) :
    Element G × Nat :=
  let material_name := if fixture_type = "SINK" then "Porcelain" else "Ceramic"
  ({ guid := gen n, entity := "IfcSanitaryTerminal", name := name,
     tag := fixture_type, position := position, axisEnd := position,
     dims := [width, depth, height], material := material_name }, n + 1)

/-- One iteration of the `for i in range(2, 5)` bathroom loop of
`create_fixtures` (source lines 848-882): a toilet and a bathroom sink at
parameter-fraction coordinates of the footprint, registered under storey
`i` in one relation. -/
def bathroom_floor {G : Type} (gen : Nat → G) (p : Params) (storeys : List Storey)
    (i n : Nat) : List (Element G) × (Nat × List (Option (Element G))) × Nat :=
  let building_width := convert_to_meter p.buildingWidth
  let building_depth := convert_to_meter p.buildingDepth
  let elev := (storeys.getD i { name := "", elevation := 0 }).elevation
  let toilet := create_fixture gen n ("Toilet Floor " ++ toString i)
    ⟨building_width * 0.75, building_depth * 0.25, elev + convert_to_meter 0⟩
    (convert_to_meter 1.5) (convert_to_meter 2) (convert_to_meter 1) "WCCISTERN"
  let bath_sink := create_fixture gen toilet.2 ("Bathroom Sink Floor " ++ toString i)
    ⟨building_width * 0.75, building_depth * 0.35, elev + convert_to_meter 3⟩
    (convert_to_meter 2) (convert_to_meter 1.5) (convert_to_meter 0.5) "SINK"
  ([toilet.1, bath_sink.1], (i, [some toilet.1, some bath_sink.1]), bath_sink.2)

/-- Source function `create_fixtures` (lines 825-888): the kitchen sink is created
first; the bathroom loop (`for i in range(2, 5)`, unrolled) registers each
floor's pair under its storey; the kitchen-sink relation to storey 1 is
created after the loop. -/
def create_fixtures {G : Type} (gen : Nat → G) (p : Params) (storeys : List Storey)
    (n : Nat) : List (Element G) × List (Nat × List (Option (Element G))) × Nat :=
  let building_width := convert_to_meter p.buildingWidth
  let building_depth := convert_to_meter p.buildingDepth
  let elev1 := (storeys.getD 1 { name := "", elevation := 0 }).elevation
  let sink := create_fixture gen n "Kitchen Sink"
    ⟨building_width * 0.25, building_depth * 0.3, elev1 + convert_to_meter 3⟩
    (convert_to_meter 3) (convert_to_meter 2) (convert_to_meter 0.5) "SINK"
  let f2 := bathroom_floor gen p storeys 2 sink.2
  let f3 := bathroom_floor gen p storeys 3 f2.2.2
  let f4 := bathroom_floor gen p storeys 4 f3.2.2
  (sink.1 :: (f2.1 ++ f3.1 ++ f4.1),
   [f2.2.1, f3.2.1, f4.2.1, (1, [some sink.1])], f4.2.2)

/-- Entity dispatch of `create_mep_element` (source lines 903-915). -/
def mep_entity_name (element_type : String) : String :=
  if element_type = "AIRHANDLER" then "IfcUnitaryEquipment"
  else if element_type = "SWITCHBOARD" then "IfcElectricDistributionBoard"
  else "IfcFlowTerminal"

/-- Source function `create_mep_element` (lines 890-927): "Metal" material; the
WATERHEATER flow terminal passes no predefined type (empty tag here). -/
def create_mep_element {G : Type} (gen : Nat → G) (n : Nat) (name : String)
    (position : Point3) (width depth height : ℚ) (element_type : String) :
    Element G × Nat :=
  ({ guid := gen n, entity := mep_entity_name element_type, name := name,
     tag := if element_type = "WATERHEATER" then "" else element_type,
     position := position, axisEnd := position,
     dims := [width, depth, height], material := "Metal" }, n + 1)

/-- Source function `create_mep_elements` (lines 929-984): HVAC unit, electrical
panel and water heater, all in the basement (storey 0), registered in one
relation. -/
def create_mep_elements {G : Type} (gen : Nat → G) (p : Params)
    (storeys : List Storey) (n : Nat) :
    List (Element G) × List (Nat × List (Option (Element G))) × Nat :=
  let building_width := convert_to_meter p.buildingWidth
  let building_depth := convert_to_meter p.buildingDepth
  let elev0 := (storeys.getD 0 { name := "", elevation := 0 }).elevation
  let hvac := create_mep_element gen n "HVAC System"
    ⟨building_width * 0.2, building_depth * 0.2, elev0 + convert_to_meter 1⟩
    (convert_to_meter 6) (convert_to_meter 4) (convert_to_meter 2) "AIRHANDLER"
  let panel := create_mep_element gen hvac.2 "Electrical Panel"
    ⟨building_width * 0.8, building_depth * 0.1, elev0 + convert_to_meter 1⟩
    (convert_to_meter 2) (convert_to_meter 0.5) (convert_to_meter 3) "SWITCHBOARD"
  let water_heater := create_mep_element gen panel.2 "Water Heater"
    ⟨building_width * 0.5, building_depth * 0.1, elev0 + convert_to_meter 1⟩
    (convert_to_meter 2) (convert_to_meter 2) (convert_to_meter 2) "WATERHEATER"
  ([hvac.1, panel.1, water_heater.1],
   [(0, [some hvac.1, some panel.1, some water_heater.1])], water_heater.2)

/-- The finished object graph of one build: the storey stack, the elements
per generator, and all containment batches in creation order. -/
structure BuildResult (G : Type) where
  storeys : List Storey
  walls : List (Option (Element G))
  slabs : List (Element G)
  windows : List (Element G)
  doors : List (Element G)
  stoop : Element G
  fixtures : List (Element G)
  mep_elements : List (Element G)
  containment : List (Nat × List (Option (Element G)))
deriving DecidableEq

/-- Source function `create_brownstone_ifc` (lines 986-1034): one linear pass,
hierarchy first, then walls, slabs, windows, doors, stoop, fixtures and MEP
units, the GUID counter threaded through in that order. -/
def create_brownstone_ifc {G : Type} (gen : Nat → G) (p : Params) :
    BuildResult G :=
  let storeys := create_storeys p
  let rw := create_walls gen p storeys 0
  let rs := create_slabs gen p storeys rw.2
  let rwin := create_windows gen p storeys rs.2.2
  let rd := create_doors gen p storeys rwin.2.2
  let rst := create_stoop gen p rd.2.2
  let rf := create_fixtures gen p storeys rst.2.2
  let rm := create_mep_elements gen p storeys rf.2.2
  { storeys := storeys,
    walls := (rw.1.map Prod.snd).flatten,
    slabs := rs.1,
    windows := rwin.1,
    doors := rd.1,
    stoop := rst.1,
    fixtures := rf.1,
    mep_elements := rm.1,
    containment := rw.1 ++ rs.2.1 ++ rwin.2.1 ++ rd.2.1 ++ rst.2.1
      ++ rf.2.1 ++ rm.2.1 }

/-- Every element the build generates, in creation order (skipped wall
requests contribute nothing). -/
def all_elements {G : Type} (b : BuildResult G) : List (Element G) :=
  b.walls.filterMap id ++ b.slabs ++ b.windows ++ b.doors ++ [b.stoop]
    ++ b.fixtures ++ b.mep_elements

/-- Every element occurring in some containment batch, batches in creation
order. -/
def contained_elements {G : Type} (b : BuildResult G) : List (Element G) :=
  (b.containment.map (fun batch => batch.2.filterMap id)).flatten

/-- The elements contained in storey `i`, merged over all of its batches. -/
def storey_contained {G : Type} (b : BuildResult G) (i : Nat) :
    List (Element G) :=
  ((b.containment.filter (fun batch => batch.1 == i)).map
    (fun batch => batch.2.filterMap id)).flatten

/-- The identifier-free part of an element: everything a viewer needs
(entity category, name, tag, placement, solid dimensions, material). -/
def element_shape {G : Type} (e : Element G) : Element Unit :=
  { guid := (), entity := e.entity, name := e.name, tag := e.tag,
    position := e.position, axisEnd := e.axisEnd, dims := e.dims,
    material := e.material }

/-- The geometric/graph shape of a build: the build result with every
element identifier erased (counts, order, placements, dimensions,
categories and the containment structure are all retained). -/
def build_shape {G : Type} (b : BuildResult G) : BuildResult Unit :=
  { storeys := b.storeys,
    walls := b.walls.map (Option.map element_shape),
    slabs := b.slabs.map element_shape,
    windows := b.windows.map element_shape,
    doors := b.doors.map element_shape,
    stoop := element_shape b.stoop,
    fixtures := b.fixtures.map element_shape,
    mep_elements := b.mep_elements.map element_shape,
    containment := b.containment.map
      (fun batch => (batch.1, batch.2.map (Option.map element_shape))) }

set_option maxRecDepth 100000 in
/-- C7: after a complete build at the source's parameters, every generated
element (wall, slab, window, door, stoop, fixture, MEP unit) appears in
exactly one storey's containment set: the contained identifier list is
duplicate-free (no element is double-assigned, within or across storeys)
and is a permutation of the generated identifier list (no element is left
unassigned). -/
theorem containment_exactly_once :
    ((contained_elements (create_brownstone_ifc (fun k => k) defaultParams)).map
        Element.guid).Nodup
    ∧ ((contained_elements (create_brownstone_ifc (fun k => k) defaultParams)).map
        Element.guid).Perm
      ((all_elements (create_brownstone_ifc (fun k => k) defaultParams)).map
        Element.guid) := by
  decide

/-- C9: two complete builds with the same parameters and arbitrary — hence
possibly different — identifier supplies have identical geometric/graph
shapes: same element counts, names, categories, placements, solid
dimensions and containment structure. -/
theorem build_shape_deterministic {G1 G2 : Type} (gen1 : Nat → G1)
    (gen2 : Nat → G2) :
    build_shape (create_brownstone_ifc gen1 defaultParams)
      = build_shape (create_brownstone_ifc gen2 defaultParams) := rfl

set_option maxRecDepth 100000 in
/-- Counterexample to C10 at the source's parameters: the roof sentinel
storey (index 5) contains two elements — the topmost interior slab
("Roof", related to `storeys[i+1]` with `i = 4` at source line 357) and the
roof-cap slab ("Roof Slab", related to the top storey at source line 396) —
not exactly one. -/
theorem roof_sentinel_count_counterexample :
    (storey_contained (create_brownstone_ifc (fun k => k) defaultParams) 5).map
        Element.name = ["Roof", "Roof Slab"]
    ∧ ¬ (storey_contained (create_brownstone_ifc (fun k => k) defaultParams)
          5).length = 1 := by
  decide

set_option maxRecDepth 100000 in
/-- C10 (amended): each interior slab is registered in the upper storey of
its boundary (never the lower): storey `i`'s only slab is "Floor i" for
`i = 1, 2, 3, 4`, the basement (storey 0) contains no slab, and the roof
sentinel contains exactly two elements, the topmost interior slab and the
roof-cap slab. -/
theorem slab_containment_upper_storey :
    ((storey_contained (create_brownstone_ifc (fun k => k) defaultParams) 0).filter
        (fun e => e.entity == "IfcSlab")).map Element.name = []
    ∧ ((storey_contained (create_brownstone_ifc (fun k => k) defaultParams) 1).filter
        (fun e => e.entity == "IfcSlab")).map Element.name = ["Floor 1"]
    ∧ ((storey_contained (create_brownstone_ifc (fun k => k) defaultParams) 2).filter
        (fun e => e.entity == "IfcSlab")).map Element.name = ["Floor 2"]
    ∧ ((storey_contained (create_brownstone_ifc (fun k => k) defaultParams) 3).filter
        (fun e => e.entity == "IfcSlab")).map Element.name = ["Floor 3"]
    ∧ ((storey_contained (create_brownstone_ifc (fun k => k) defaultParams) 4).filter
        (fun e => e.entity == "IfcSlab")).map Element.name = ["Floor 4"]
    ∧ (storey_contained (create_brownstone_ifc (fun k => k) defaultParams) 5).map
        Element.name = ["Roof", "Roof Slab"] := by
  decide
